import Mathlib

/-!
Verification of the OpenGeminiWatermarkTool backend pipeline.

This file is a shallow embedding, in Lean 4, of the Python backend found
under web/backend/src: the custom exception hierarchy (core/exceptions.py),
the file validator (utils/validators.py), the binary executor
(utils/binary_executor.py), the file service (services/file_service.py),
the Turnstile verification service (services/turnstile_service.py), the
orchestration service (services/watermark_service.py) and the API route
handler (api/routes.py).

Modelling conventions:
- Python exceptions become an inductive type of error values; a function
  that can raise returns Except.
- External nondeterminism (what the subprocess does, what PIL does when
  decoding a file, what the Turnstile provider answers, which UUIDs are
  drawn, clock readings) is packaged into explicit environment records
  passed to the embedded functions.
- Filesystem paths are modelled as lists of path components; joining a
  directory with a filename appends one component, and the pathlib name
  accessor takes the last component.
- Byte strings are lists of Nat taken modulo 256 where their numeric value
  matters (base64 encoding).
- Python dict literals used for the structured detail payloads become
  association lists from string keys to a small value type; the one float
  the code stores (a megabyte count rounded to two decimals) is kept
  symbolically as a constructor carrying the exact byte count, so no
  floating point arithmetic is modelled.
- Timestamps and durations are opaque Nat values supplied by the
  environment; the code only stores and subtracts them.
-/

/-- Values stored in the structured `details` payloads of the exception
classes.  `roundedMB n` stands for the Python expression
`round(n / (1024 * 1024), 2)` applied to a byte count `n`, kept symbolic. -/
inductive DVal where
  | s (v : String)
  | i (v : Int)
  | strList (v : List String)
  | roundedMB (bytes : Nat)
deriving DecidableEq, Repr

/-- The `details` dict of an application exception. -/
abbrev Details := List (String × DVal)

/-- The application exception hierarchy of core/exceptions.py.  Each
constructor is one concrete subclass of AppException; the base class itself
is never raised by the code under study.  BinaryExecutionError stores the
exit code inside its details dict (as the Python constructor does), so it
needs no separate field here. -/
inductive AppExc where
  | validationError (message : String) (details : Details)
  | turnstileError (message : String) (details : Details)
  | processingError (message : String) (details : Details)
  | rateLimitError (message : String) (details : Details)
  | binaryExecutionError (message : String) (details : Details)
  | fileNotFoundError (message : String) (details : Details)
deriving DecidableEq, Repr

/-- The status_code each subclass passes to the AppException constructor. -/
def AppExc.statusCode : AppExc → Nat
  | .validationError _ _ => 400
  | .turnstileError _ _ => 403
  | .processingError _ _ => 500
  | .rateLimitError _ _ => 429
  | .binaryExecutionError _ _ => 500
  | .fileNotFoundError _ _ => 404

/-- The message attribute; `str(e)` on an AppException returns exactly this
string because the constructor forwards it to `Exception.__init__`. -/
def AppExc.message : AppExc → String
  | .validationError m _ => m
  | .turnstileError m _ => m
  | .processingError m _ => m
  | .rateLimitError m _ => m
  | .binaryExecutionError m _ => m
  | .fileNotFoundError m _ => m

/-- The details dict of an application exception. -/
def AppExc.details : AppExc → Details
  | .validationError _ d => d
  | .turnstileError _ d => d
  | .processingError _ d => d
  | .rateLimitError _ d => d
  | .binaryExecutionError _ d => d
  | .fileNotFoundError _ d => d

/-- The class name, as used by the exception handler in main.py for the
`error` field of the JSON envelope. -/
def AppExc.className : AppExc → String
  | .validationError _ _ => "ValidationError"
  | .turnstileError _ _ => "TurnstileError"
  | .processingError _ _ => "ProcessingError"
  | .rateLimitError _ _ => "RateLimitError"
  | .binaryExecutionError _ _ => "BinaryExecutionError"
  | .fileNotFoundError _ _ => "FileNotFoundError"

/-- The key list of a details payload (used to tell error shapes apart). -/
def detailKeys (d : Details) : List String := d.map Prod.fst

instance {ε α : Type} [DecidableEq ε] [DecidableEq α] : DecidableEq (Except ε α) := fun x y =>
  match x, y with
  | .ok a, .ok b =>
    if h : a = b then isTrue (by rw [h]) else isFalse (fun hc => by cases hc; exact h rfl)
  | .error a, .error b =>
    if h : a = b then isTrue (by rw [h]) else isFalse (fun hc => by cases hc; exact h rfl)
  | .ok _, .error _ => isFalse (fun hc => by cases hc)
  | .error _, .ok _ => isFalse (fun hc => by cases hc)

/-- The BinaryExecutionError constructor of core/exceptions.py: it copies
the supplied details and, when an exit code is given, stores it under the
key exit_code. -/
def mkBinaryExecutionError (message : String) (exitCode : Option Int)
    (details : Details) : AppExc :=
  .binaryExecutionError message
    (details ++ (match exitCode with
      | some c => [("exit_code", DVal.i c)]
      | none => []))

/-- The JSON error envelope produced by app_exception_handler in main.py:
HTTP status code taken from the exception, body fields error / message /
details taken verbatim from the exception. -/
structure ErrorEnvelope where
  httpStatus : Nat
  error : String
  message : String
  details : Details
deriving DecidableEq, Repr

/-- app_exception_handler of main.py, restricted to its observable output. -/
def appExceptionHandler (e : AppExc) : ErrorEnvelope :=
  { httpStatus := e.statusCode
    error := e.className
    message := e.message
    details := e.details }

/-- Python `str.rfind(c)` on a character sequence: index of the last
occurrence, or -1 when absent. -/
def pyRfind (cs : List Char) (c : Char) : Int :=
  match cs.reverse.findIdx? (· = c) with
  | some j => ((cs.length : Int) - 1 - (j : Int))
  | none => -1

/-- Python `pathlib.PurePath(name).suffix` for a bare file name: the part
of the name from its last dot onward, provided that dot is neither the
first nor the last character; otherwise the empty string. -/
def pySuffix (s : String) : String :=
  let cs := s.data
  let i := pyRfind cs '.'
  if 0 < i ∧ i < (cs.length : Int) - 1 then ⟨cs.drop i.toNat⟩ else ""

/-- Python `str.lstrip(".")`: drop every leading dot. -/
def pyLstripDots (s : String) : String := ⟨s.data.dropWhile (· = '.')⟩

/-- ASCII lowering of one character (the only case Python str.lower hits
on the extension and format strings this system handles). -/
def pyCharLower (c : Char) : Char :=
  if 'A' ≤ c ∧ c ≤ 'Z' then Char.ofNat (c.toNat + 32) else c

/-- Python `str.lower()`, restricted to its ASCII behaviour. -/
def pyLower (s : String) : String := ⟨s.data.map pyCharLower⟩

/-- Python `str.startswith(p)`. -/
def pyStartsWith (s p : String) : Bool := p.data.isPrefixOf s.data

/-- The extension computed by FileValidator.validate_file_extension:
`Path(filename).suffix.lower().lstrip(".")`. -/
def extractExtension (filename : String) : String :=
  pyLstripDots (pyLower (pySuffix filename))

/-- Models the Python standard library function `mimetypes.guess_type`,
which infers a MIME type from the extension of the final path component
alone and never inspects file content.  The table is restricted to the
extensions relevant to this system; every other extension yields none. -/
def mimetypesGuessType (finalComponent : String) : Option String :=
  let ext := pyLower (pySuffix finalComponent)
  if ext = ".png" then some "image/png"
  else if ext = ".jpg" then some "image/jpeg"
  else if ext = ".jpeg" then some "image/jpeg"
  else if ext = ".webp" then some "image/webp"
  else if ext = ".bmp" then some "image/bmp"
  else if ext = ".gif" then some "image/gif"
  else if ext = ".exe" then some "application/x-msdownload"
  else if ext = ".txt" then some "text/plain"
  else none

/-- A filesystem path, as the ordered list of its components. -/
abbrev FsPath := List String

/-- Python `Path(p).name` for a path built from components: the last
component (empty for an empty path). -/
def pathName (p : FsPath) : String := p.getLastD ""

/-- Configuration slice used by FileValidator (from core/config.py):
max_file_size_mb and allowed_extensions.  The byte limit is derived in the
FileValidator constructor as `max_file_size_mb * 1024 * 1024`. -/
structure ValidatorCfg where
  maxFileSizeMb : Nat
  allowedExtensions : List String
deriving DecidableEq, Repr

/-- `self.max_size_bytes` of FileValidator. -/
def ValidatorCfg.maxSizeBytes (cfg : ValidatorCfg) : Nat :=
  cfg.maxFileSizeMb * 1024 * 1024

/-- What PIL.Image.open does on the stored file: either decodes it,
yielding format, width, height and mode, or raises (carrying a message). -/
inductive DecodeOutcome where
  | decodes (format : String) (width : Nat) (height : Nat) (mode : String)
  | fails (errMsg : String)
deriving DecidableEq, Repr

/-- Image metadata extracted by FileValidator.validate_image_format. -/
structure ImgMeta where
  format : String
  width : Nat
  height : Nat
  mode : String
deriving DecidableEq, Repr

/-- FileValidator.validate_file_size: raises ValidationError exactly when
the size strictly exceeds the configured byte limit. -/
def validateFileSize (cfg : ValidatorCfg) (fileSize : Nat) : Except AppExc Unit :=
  if fileSize > cfg.maxSizeBytes then
    let mb := cfg.maxFileSizeMb
    .error (.validationError
      (s!"File size exceeds maximum limit of {mb}MB")
      [("max_size_mb", DVal.i mb), ("received_size_mb", DVal.roundedMB fileSize)])
  else .ok ()

/-- FileValidator.validate_file_extension: raises ValidationError exactly
when the lowercased extension, stripped of leading dots, is not in the
configured allow-list. -/
def validateFileExtension (cfg : ValidatorCfg) (filename : String) : Except AppExc Unit :=
  let extension := extractExtension filename
  if extension ∉ cfg.allowedExtensions then
    .error (.validationError
      (s!"File extension \x27{extension}\x27 not allowed")
      [("allowed_extensions", DVal.strList cfg.allowedExtensions),
       ("received_extension", DVal.s extension)])
  else .ok ()

/-- FileValidator.validate_mime_type: guesses the MIME type from the path
(the guess depends only on the extension of the final component) and raises
ValidationError when the guess is absent or does not start with image/. -/
def validateMimeType (filePath : FsPath) : Except AppExc Unit :=
  let mimeType := mimetypesGuessType (pathName filePath)
  match mimeType with
  | none =>
    .error (.validationError "File is not a valid image"
      [("mime_type", DVal.s "unknown")])
  | some m =>
    if ¬ pyStartsWith m "image/" then
      .error (.validationError "File is not a valid image"
        [("mime_type", DVal.s m)])
    else .ok ()

/-- FileValidator.validate_image_format: opens the file with PIL; on
success returns the metadata, on any decoding exception raises a
ValidationError wrapping the message of the decode error. -/
def validateImageFormat (decode : DecodeOutcome) : Except AppExc ImgMeta :=
  match decode with
  | .decodes f w h m => .ok { format := f, width := w, height := h, mode := m }
  | .fails e =>
    .error (.validationError "Failed to read image file" [("error", DVal.s e)])

/-- The successful result dict of FileValidator.validate_file (the valid
and size_mb entries are omitted: the former is the constant True and the
latter is the symbolic rounded megabyte count of size_bytes). -/
structure ValidationOk where
  filename : String
  sizeBytes : Nat
  metadata : ImgMeta
deriving DecidableEq, Repr

/-- Outcome of FileValidator.validate_file, instrumented with whether the
fourth check (the PIL decode in validate_image_format) was reached. -/
structure ValidateOutcome where
  decodeAttempted : Bool
  result : Except AppExc ValidationOk
deriving Repr, DecidableEq

/-- FileValidator.validate_file: the four checks in source order - size,
extension, MIME type, image decode - each short-circuiting the rest on
failure.  The decode behaviour of the stored file is supplied as an
explicit environment value. -/
def validateFile (cfg : ValidatorCfg) (decode : DecodeOutcome)
    (filePath : FsPath) (fileSize : Nat) (filename : String) : ValidateOutcome :=
  match validateFileSize cfg fileSize with
  | .error e => { decodeAttempted := false, result := .error e }
  | .ok _ =>
    match validateFileExtension cfg filename with
    | .error e => { decodeAttempted := false, result := .error e }
    | .ok _ =>
      match validateMimeType filePath with
      | .error e => { decodeAttempted := false, result := .error e }
      | .ok _ =>
        match validateImageFormat decode with
        | .error e => { decodeAttempted := true, result := .error e }
        | .ok m =>
          { decodeAttempted := true
            result := .ok { filename := filename, sizeBytes := fileSize, metadata := m } }

/-- Configuration slice used by BinaryExecutor: binary_path and
binary_timeout_seconds from core/config.py. -/
structure ExecCfg where
  binaryPath : String
  timeoutSeconds : Nat
deriving DecidableEq, Repr

/-- What the operating system does when the executor runs the binary:
the wait on the process times out, the spawn raises a SubprocessError
(the case the except clause of BinaryExecutor.execute handles), or the
process exits with a code and produces output streams.  The streams are
taken already text-decoded, since the decode with errors replaced cannot
fail. -/
inductive RunBehavior where
  | timesOut
  | spawnFails (errMsg : String)
  | exits (code : Int) (stdout : String) (stderr : String)
deriving DecidableEq, Repr

/-- Environment of one call to BinaryExecutor.execute: whether
`Path(binary_path).is_file()` holds at call time, and what the run does. -/
structure ExecEnv where
  binaryIsFile : Bool
  run : RunBehavior
deriving DecidableEq, Repr

/-- The result dict returned by BinaryExecutor.execute on success. -/
structure ExecResult where
  exitCode : Int
  stdout : String
  stderr : String
  success : Bool
deriving DecidableEq, Repr

/-- Outcome of BinaryExecutor.execute, instrumented with whether a
subprocess was spawned (the create_subprocess_exec call was reached) and
whether the timeout branch killed it (process.kill followed by
process.wait). -/
structure ExecOutcome where
  spawned : Bool
  killed : Bool
  cmd : List String
  result : Except AppExc ExecResult
deriving DecidableEq, Repr

/-- BinaryExecutor.execute of utils/binary_executor.py.  Branches, in
source order: missing binary raises before any spawn; a timed-out wait
kills the process, awaits it and raises; a nonzero exit code raises
carrying the exit code and both captured streams; exit code zero returns
the result dict.  A SubprocessError from the spawn is caught by the
enclosing except clause and re-raised as a BinaryExecutionError. -/
def binaryExecute (cfg : ExecCfg) (env : ExecEnv)
    (inputPath outputPath : String) (additionalArgs : List String) : ExecOutcome :=
  if ¬ env.binaryIsFile then
    let p := cfg.binaryPath
    { spawned := false, killed := false, cmd := []
      result := .error (mkBinaryExecutionError (s!"Binary not found at {p}") none
        [("binary_path", DVal.s p)]) }
  else
    let cmd := [cfg.binaryPath, "-i", inputPath, "-o", outputPath, "-r"] ++ additionalArgs
    match env.run with
    | .spawnFails e =>
      { spawned := true, killed := false, cmd := cmd
        result := .error (mkBinaryExecutionError (s!"Failed to execute binary: {e}") none
          [("error", DVal.s e)]) }
    | .timesOut =>
      let t := cfg.timeoutSeconds
      { spawned := true, killed := true, cmd := cmd
        result := .error (mkBinaryExecutionError
          (s!"Binary execution timed out after {t} seconds") none
          [("timeout_seconds", DVal.i t)]) }
    | .exits code out err =>
      if code ≠ 0 then
        { spawned := true, killed := false, cmd := cmd
          result := .error (mkBinaryExecutionError
            (s!"Binary execution failed with exit code {code}") (some code)
            [("stderr", DVal.s err), ("stdout", DVal.s out)]) }
      else
        { spawned := true, killed := false, cmd := cmd
          result := .ok { exitCode := code, stdout := out, stderr := err
                          success := code == 0 } }

/-- The base64 alphabet, as used by the standard encoding. -/
def b64Alphabet : List Char :=
  "ABCDEFGHIJKLMNOPQRSTUVWXYZabcdefghijklmnopqrstuvwxyz0123456789+/".data

/-- Character of the base64 alphabet at a 6-bit index. -/
def b64Char (n : Nat) : Char := b64Alphabet.getD (n % 64) 'A'

/-- Standard base64 of a byte list (Python base64.b64encode followed by an
ASCII decode), with the usual padding. -/
def b64Encode : List Nat → String
  | [] => ""
  | [a] =>
    let a := a % 256
    ⟨[b64Char (a / 4), b64Char (a % 4 * 16), '=', '=']⟩
  | [a, b] =>
    let a := a % 256
    let b := b % 256
    ⟨[b64Char (a / 4), b64Char (a % 4 * 16 + b / 16), b64Char (b % 16 * 4), '=']⟩
  | a :: b :: c :: rest =>
    let a := a % 256
    let b := b % 256
    let c := c % 256
    (⟨[b64Char (a / 4), b64Char (a % 4 * 16 + b / 16),
       b64Char (b % 16 * 4 + c / 64), b64Char (c % 64)]⟩ : String)
      ++ b64Encode rest

/-- Job status enum from api/models.py. -/
inductive JobStatus where
  | pending
  | processing
  | completed
  | failed
deriving DecidableEq, Repr

/-- Image format enum from api/models.py. -/
inductive ImageFormat where
  | jpeg
  | png
  | webp
  | bmp
deriving DecidableEq, Repr

/-- Watermark size enum from api/models.py. -/
inductive WatermarkSize where
  | small48x48
  | large96x96
  | unknown
deriving DecidableEq, Repr

/-- UploadSession model from api/models.py (timestamps as opaque Nat). -/
structure UploadSession where
  sessionId : String
  clientIp : String
  turnstileToken : String
  turnstileVerified : Bool
  uploadedAt : Nat
deriving DecidableEq, Repr

/-- ProcessingJob model from api/models.py. -/
structure ProcessingJob where
  jobId : String
  sessionId : String
  inputFilePath : FsPath
  outputFilePath : FsPath
  status : JobStatus
  startedAt : Option Nat
  completedAt : Option Nat
  durationMs : Option Nat
  errorMessage : Option String
  binaryExitCode : Option Int
  detectedWatermarkSize : WatermarkSize
deriving DecidableEq, Repr

/-- ImageMetadata model from api/models.py. -/
structure ImageMetadata where
  jobId : String
  fileName : String
  fileSizeBytes : Nat
  fileFormat : ImageFormat
  mimeType : String
  widthPixels : Nat
  heightPixels : Nat
  hasWatermark : Bool
  watermarkSize : WatermarkSize
  watermarkPosition : String
  validationPassed : Bool
deriving DecidableEq, Repr

/-- SingleImageResponse model from api/models.py. -/
structure SingleImageResponse where
  jobId : String
  status : JobStatus
  processedImageBase64 : Option String
  originalFilename : String
  outputFilename : Option String
  durationMs : Option Nat
  watermarkSize : WatermarkSize
  error : Option String
deriving DecidableEq, Repr

/-- Configuration slice used by FileService: the two storage directories. -/
structure FsCfg where
  uploadDir : FsPath
  outputDir : FsPath
deriving DecidableEq, Repr

/-- FileService.generate_filename: a fresh 128-bit random identifier
(supplied by the environment) concatenated with the preserved extension of
the original name. -/
def generateFilename (fileUuid : String) (originalFilename : String) : String × String :=
  let extension := pySuffix originalFilename
  (fileUuid ++ extension, extension)

/-- FileService.get_output_path: same filename, output directory. -/
def getOutputPath (cfg : FsCfg) (inputFilename : String) : FsPath :=
  cfg.outputDir ++ [inputFilename]

/-- WatermarkService._detect_watermark_size: a pure dimension heuristic. -/
def detectWatermarkSize (width height : Nat) : WatermarkSize :=
  if width ≤ 1024 ∨ height ≤ 1024 then .small48x48 else .large96x96

/-- WatermarkService._create_image_metadata: maps the decoded format string
(lowercased) to the format enum, raising ValidationError for anything
outside the four supported formats, then assembles the ImageMetadata. -/
def createImageMetadata (jobId : String) (filename : String)
    (vres : ValidationOk) : Except AppExc ImageMetadata :=
  let formatStr := pyLower vres.metadata.format
  let fmt : Except AppExc ImageFormat :=
    if formatStr = "jpg" ∨ formatStr = "jpeg" then .ok .jpeg
    else if formatStr = "png" then .ok .png
    else if formatStr = "webp" then .ok .webp
    else if formatStr = "bmp" then .ok .bmp
    else .error (.validationError (s!"Unsupported format: {formatStr}") [])
  match fmt with
  | .error e => .error e
  | .ok imageFormat =>
    .ok { jobId := jobId
          fileName := filename
          fileSizeBytes := vres.sizeBytes
          fileFormat := imageFormat
          mimeType := "image/" ++ formatStr
          widthPixels := vres.metadata.width
          heightPixels := vres.metadata.height
          hasWatermark := true
          watermarkSize := detectWatermarkSize vres.metadata.width vres.metadata.height
          watermarkPosition := "bottom-right"
          validationPassed := true }

/-- Rendering of a component path as the string Python would hold. -/
def pathStr (p : FsPath) : String := String.intercalate "/" p

/-- The run mode, settings.app_env of core/config.py: a two-valued
literal type with development as the default. -/
inductive AppEnvMode where
  | development
  | production
deriving DecidableEq, Repr

/-- Configuration slice used by TurnstileService: the secret key (absent
or possibly empty, both falsy in Python) and the run mode. -/
structure TsCfg where
  secretKey : Option String
  appEnvMode : AppEnvMode
deriving DecidableEq, Repr

/-- Python truthiness of an optional string: None and the empty string are
falsy. -/
def optStrFalsy : Option String → Bool
  | none => true
  | some s => s.isEmpty

/-- What the outbound Turnstile verification call does: a transport-level
failure (an httpx.HTTPError, which includes the non-2xx case raised by
raise_for_status), or a JSON answer with a success flag and error codes. -/
inductive TsProvider where
  | transportError (msg : String)
  | responds (success : Bool) (errorCodes : List String)
deriving DecidableEq, Repr

/-- Observable part of the dict TurnstileService.verify_token returns: the
success flag and whether the development bypass produced it. -/
structure TsResult where
  success : Bool
  bypass : Bool
deriving DecidableEq, Repr

/-- The fixed code-to-message table of TurnstileService._get_error_message. -/
def tsErrorTable : List (String × String) :=
  [("missing-input-secret", "Server configuration error"),
   ("invalid-input-secret", "Server configuration error"),
   ("missing-input-response", "Verification token is missing"),
   ("invalid-input-response", "Verification token is invalid or expired"),
   ("bad-request", "Invalid verification request"),
   ("timeout-or-duplicate", "Token has expired or was already used")]

/-- TurnstileService._get_error_message: the message of the first error
code present in the table, else a generic message. -/
def tsGetErrorMessage (errorCodes : List String) : String :=
  match errorCodes.find? (fun c => (tsErrorTable.lookup c).isSome) with
  | some c => (tsErrorTable.lookup c).getD "Verification failed"
  | none => "Verification failed"

/-- TurnstileService.verify_token of services/turnstile_service.py.  With a
falsy secret key: success with the bypass flag in development mode, a
TurnstileError in any other mode.  Otherwise the outbound call decides:
transport failure raises, a provider answer with success false raises
carrying the error codes and the derived message, and a successful answer
is returned (the raw provider dict has no bypass key, rendered here as
bypass false). -/
def verifyToken (cfg : TsCfg) (provider : TsProvider) (_token : String)
    (_clientIp : Option String) : Except AppExc TsResult :=
  if optStrFalsy cfg.secretKey then
    if cfg.appEnvMode = .development then .ok { success := true, bypass := true }
    else
      .error (.turnstileError "Turnstile verification not configured"
        [("error", DVal.s "missing_secret_key")])
  else
    match provider with
    | .transportError e =>
      .error (.turnstileError "Failed to verify Turnstile token" [("error", DVal.s e)])
    | .responds success errorCodes =>
      if ¬ success then
        .error (.turnstileError "Turnstile verification failed"
          [("error_codes", DVal.strList errorCodes),
           ("message", DVal.s (tsGetErrorMessage errorCodes))])
      else .ok { success := true, bypass := false }

/-- Core of _anonymize_ip from api/routes.py, on the character sequence of
the address: an address containing a colon keeps its first four
colon-separated groups and gets a fixed ":0:0:0:0" tail; any other address
keeps its first three dot-separated parts and gets a ".0" tail. -/
def anonymizeIpChars (ip : List Char) : List Char :=
  if ':' ∈ ip then
    List.intercalate [':'] ((ip.splitOn ':').take 4) ++ (":0:0:0:0").data
  else
    List.intercalate ['.'] ((ip.splitOn '.').take 3) ++ (".0").data

/-- _anonymize_ip of api/routes.py. -/
def anonymizeIp (ip : String) : String := ⟨anonymizeIpChars ip.data⟩

/-- Full configuration record handed to the embedded services. -/
structure AppCfg where
  validator : ValidatorCfg
  exec : ExecCfg
  fs : FsCfg
  ts : TsCfg
deriving DecidableEq, Repr

/-- Environment of one call to WatermarkService.process_single_image: the
job and file UUID draws, the decode behaviour of the saved upload, the
behaviour of the binary run, the content of the output file after the run
(none when the binary left no output file), and clock readings. -/
structure PipelineEnv where
  jobUuid : String
  fileUuid : String
  decode : DecodeOutcome
  execEnv : ExecEnv
  outputContent : Option (List Nat)
  startTime : Nat
  elapsedMs : Nat
deriving Repr

/-- Outcome of WatermarkService.process_single_image, instrumented with
whether the binary was invoked, and with the final state of the
ProcessingJob object (none when the flow raised before the job object was
created). -/
structure PipelineOutcome where
  binaryInvoked : Bool
  job : Option ProcessingJob
  result : Except AppExc SingleImageResponse
deriving DecidableEq, Repr

/-- WatermarkService.process_single_image of services/watermark_service.py.
Steps in source order: save the upload under a fresh unique name (the
write itself is assumed to succeed; a failing write would escape this
function unhandled), validate, build metadata, classify the watermark
size, create the job in processing state, run the binary inside the try
block, and on success read the output file and assemble the response.  Any
exception from the try block marks the job failed, records the message and
re-raises as a ProcessingError carrying the job id. -/
def processSingleImage (cfg : AppCfg) (env : PipelineEnv) (fileContent : List Nat)
    (filename : String) (session : UploadSession) : PipelineOutcome :=
  let jobId := env.jobUuid
  let uniqueFilename := (generateFilename env.fileUuid filename).1
  let inputPath := cfg.fs.uploadDir ++ [uniqueFilename]
  let v := validateFile cfg.validator env.decode inputPath fileContent.length filename
  match v.result with
  | .error e => { binaryInvoked := false, job := none, result := .error e }
  | .ok vres =>
    match createImageMetadata jobId filename vres with
    | .error e => { binaryInvoked := false, job := none, result := .error e }
    | .ok metadata =>
      let watermarkSize := detectWatermarkSize metadata.widthPixels metadata.heightPixels
      let outputPath := getOutputPath cfg.fs uniqueFilename
      let job : ProcessingJob :=
        { jobId := jobId, sessionId := session.sessionId
          inputFilePath := inputPath, outputFilePath := outputPath
          status := .processing, startedAt := some env.startTime
          completedAt := none, durationMs := none, errorMessage := none
          binaryExitCode := none, detectedWatermarkSize := watermarkSize }
      let ex := binaryExecute cfg.exec env.execEnv (pathStr inputPath) (pathStr outputPath) []
      match ex.result with
      | .error e =>
        let m := e.message
        let failedJob :=
          { job with status := JobStatus.failed
                     completedAt := some (env.startTime + env.elapsedMs)
                     errorMessage := some m }
        { binaryInvoked := true, job := some failedJob
          result := .error (.processingError (s!"Failed to process image: {m}")
            [("job_id", DVal.s jobId), ("error", DVal.s m)]) }
      | .ok r =>
        let jobDone :=
          { job with status := JobStatus.completed
                     completedAt := some (env.startTime + env.elapsedMs)
                     durationMs := some env.elapsedMs
                     binaryExitCode := some r.exitCode }
        match env.outputContent with
        | none =>
          let outName := pathName outputPath
          let dirStr := pathStr cfg.fs.outputDir
          let fnf : AppExc := .fileNotFoundError (s!"File not found: {outName}")
            [("file_name", DVal.s outName), ("directory", DVal.s dirStr)]
          let m := fnf.message
          let failedJob := { jobDone with status := JobStatus.failed, errorMessage := some m }
          { binaryInvoked := true, job := some failedJob
            result := .error (.processingError (s!"Failed to process image: {m}")
              [("job_id", DVal.s jobId), ("error", DVal.s m)]) }
        | some content =>
          let b64 := b64Encode content
          { binaryInvoked := true, job := some jobDone
            result := .ok { jobId := jobId, status := jobDone.status
                            processedImageBase64 := some b64
                            originalFilename := filename
                            outputFilename := some (pathName outputPath)
                            durationMs := jobDone.durationMs
                            watermarkSize := watermarkSize, error := none } }

/-- Environment of one call to the remove_watermark route handler. -/
structure RouteEnv where
  sessionUuid : String
  clientHost : Option String
  provider : TsProvider
  now : Nat
  pipe : PipelineEnv
deriving Repr

/-- Outcome of the remove_watermark route handler, instrumented with the
UploadSession it built (none when rejected before session creation),
whether process_single_image ran, and whether the binary was invoked. -/
structure RouteOutcome where
  session : Option UploadSession
  pipelineRan : Bool
  binaryInvoked : Bool
  result : Except AppExc SingleImageResponse
deriving DecidableEq, Repr

/-- remove_watermark of api/routes.py.  Steps in source order: reject an
absent filename; derive the client address (the literal unknown when the
request has no client) and anonymize it; verify the Turnstile token
against the raw address; build the session carrying the anonymized
address; reject oversized content with a ValidationError; delegate to
process_single_image. -/
def removeWatermark (cfg : AppCfg) (env : RouteEnv) (fileContent : List Nat)
    (filename : String) (turnstileToken : String) : RouteOutcome :=
  if filename.isEmpty then
    { session := none, pipelineRan := false, binaryInvoked := false
      result := .error (.validationError "No file provided" []) }
  else
    let clientIp := (env.clientHost).getD "unknown"
    let anonymizedIp := anonymizeIp clientIp
    match verifyToken cfg.ts env.provider turnstileToken (some clientIp) with
    | .error e =>
      { session := none, pipelineRan := false, binaryInvoked := false
        result := .error e }
    | .ok _ =>
      let session : UploadSession :=
        { sessionId := env.sessionUuid, clientIp := anonymizedIp
          turnstileToken := turnstileToken, turnstileVerified := true
          uploadedAt := env.now }
      if fileContent.length > cfg.validator.maxSizeBytes then
        let mb := cfg.validator.maxFileSizeMb
        { session := some session, pipelineRan := false, binaryInvoked := false
          result := .error (.validationError (s!"File size exceeds {mb}MB limit")
            [("max_size_mb", DVal.i mb),
             ("received_size_mb", DVal.roundedMB fileContent.length)]) }
      else
        let p := processSingleImage cfg env.pipe fileContent filename session
        { session := some session, pipelineRan := true
          binaryInvoked := p.binaryInvoked, result := p.result }

/-- C2: for every validated image, the watermark-size classification is
small (small_48x48) iff width or height is at most 1024, and large
(large_96x96) otherwise; an image with a side of exactly 1024 is small. -/
theorem claim2_watermark_size_classification (w h : Nat) :
    (detectWatermarkSize w h = .small48x48 ↔ (w ≤ 1024 ∨ h ≤ 1024)) ∧
    (detectWatermarkSize w h = .large96x96 ↔ ¬ (w ≤ 1024 ∨ h ≤ 1024)) ∧
    detectWatermarkSize 1024 h = .small48x48 ∧
    detectWatermarkSize w 1024 = .small48x48 := by
  unfold detectWatermarkSize
  by_cases hc : w ≤ 1024 ∨ h ≤ 1024 <;> simp [hc]

/-- Witness for C2 at the boundary input 1024 x 4000. -/
theorem claim2_witness : detectWatermarkSize 1024 4000 = .small48x48 :=
  (claim2_watermark_size_classification 1024 4000).2.2.1

/-- C3: validate_file applies exactly four checks in the fixed order size,
extension, MIME type, image decode, short-circuiting on the first failure
with a ValidationError; the size check fails iff size exceeds the byte
limit (exactly the limit passes), and the extension check fails iff the
lowercased extension stripped of its leading dot is outside the allow-list. -/
theorem claim3_validate_file_checks
    (cfg : ValidatorCfg) (decode : DecodeOutcome) (filePath : FsPath)
    (fileSize : Nat) (filename : String) :
    ((∃ e, validateFileSize cfg fileSize = .error e) ↔ fileSize > cfg.maxSizeBytes) ∧
    ((∃ e, validateFileExtension cfg filename = .error e) ↔
      extractExtension filename ∉ cfg.allowedExtensions) ∧
    (fileSize > cfg.maxSizeBytes →
      ∃ e, validateFileSize cfg fileSize = .error e ∧ e.statusCode = 400 ∧
        validateFile cfg decode filePath fileSize filename =
          { decodeAttempted := false, result := .error e }) ∧
    (fileSize ≤ cfg.maxSizeBytes → extractExtension filename ∉ cfg.allowedExtensions →
      ∃ e, validateFileExtension cfg filename = .error e ∧ e.statusCode = 400 ∧
        validateFile cfg decode filePath fileSize filename =
          { decodeAttempted := false, result := .error e }) ∧
    (fileSize ≤ cfg.maxSizeBytes → extractExtension filename ∈ cfg.allowedExtensions →
      (∀ e, validateMimeType filePath = .error e → e.statusCode = 400 ∧
        validateFile cfg decode filePath fileSize filename =
          { decodeAttempted := false, result := .error e })) ∧
    (fileSize ≤ cfg.maxSizeBytes → extractExtension filename ∈ cfg.allowedExtensions →
      validateMimeType filePath = .ok () →
      (∀ m, decode = .fails m →
        validateFile cfg decode filePath fileSize filename =
          { decodeAttempted := true
            result := .error (.validationError "Failed to read image file"
              [("error", DVal.s m)]) }) ∧
      (∀ f w h mo, decode = .decodes f w h mo →
        validateFile cfg decode filePath fileSize filename =
          { decodeAttempted := true
            result := .ok { filename := filename, sizeBytes := fileSize
                            metadata := { format := f, width := w, height := h, mode := mo } } })) := by
  refine ⟨?_, ?_, ?_, ?_, ?_, ?_⟩
  · constructor
    · rintro ⟨e, he⟩
      by_contra hgt
      simp [validateFileSize, hgt] at he
    · intro hgt
      cases hv : validateFileSize cfg fileSize with
      | ok u => exact absurd hv (by simp [validateFileSize, hgt])
      | error e => exact ⟨e, rfl⟩
  · constructor
    · rintro ⟨e, he⟩
      intro hmem
      simp [validateFileExtension, hmem] at he
    · intro hmem
      cases hv : validateFileExtension cfg filename with
      | ok u => exact absurd hv (by simp [validateFileExtension, hmem])
      | error e => exact ⟨e, rfl⟩
  · intro hgt
    cases hv : validateFileSize cfg fileSize with
    | ok u => exact absurd hv (by simp [validateFileSize, hgt])
    | error e =>
      have hv2 := hv
      simp [validateFileSize, hgt] at hv2
      subst hv2
      exact ⟨_, rfl, rfl, by simp [validateFile, hv]⟩
  · intro hle hmem
    have hsz : validateFileSize cfg fileSize = .ok () := by
      simp [validateFileSize, Nat.not_lt.mpr hle]
    cases hv : validateFileExtension cfg filename with
    | ok u => exact absurd hv (by simp [validateFileExtension, hmem])
    | error e =>
      have hv2 := hv
      simp [validateFileExtension, hmem] at hv2
      subst hv2
      exact ⟨_, rfl, rfl, by simp [validateFile, hsz, hv]⟩
  · intro hle hmem e hmime
    have hsz : validateFileSize cfg fileSize = .ok () := by
      simp [validateFileSize, Nat.not_lt.mpr hle]
    have hext : validateFileExtension cfg filename = .ok () := by
      simp [validateFileExtension, hmem]
    refine ⟨?_, by simp [validateFile, hsz, hext, hmime]⟩
    have h2 := hmime
    simp only [validateMimeType] at h2
    revert h2
    cases mimetypesGuessType (pathName filePath) with
    | none =>
      intro h2
      injection h2 with h2
      subst h2
      rfl
    | some m =>
      by_cases hs : pyStartsWith m "image/" = true
      · intro h2
        simp [hs] at h2
      · simp only [hs, Bool.false_eq_true, not_false_eq_true, if_true]
        intro h2
        injection h2 with h2
        subst h2
        rfl
  · intro hle hmem hmime
    have hsz : validateFileSize cfg fileSize = .ok () := by
      simp [validateFileSize, Nat.not_lt.mpr hle]
    have hext : validateFileExtension cfg filename = .ok () := by
      simp [validateFileExtension, hmem]
    constructor
    · intro m hd
      simp [validateFile, hsz, hext, hmime, hd, validateImageFormat]
    · intro f w h mo hd
      simp [validateFile, hsz, hext, hmime, hd, validateImageFormat]

/-- Witness for C3 at a concrete oversized input. -/
theorem claim3_witness :
    (2 : Nat) * 1024 * 1024 ≤ ValidatorCfg.maxSizeBytes ⟨2, ["png"]⟩ ∧
    ∃ e, validateFileSize ⟨2, ["png"]⟩ (2 * 1024 * 1024 + 1) = .error e ∧
      e.statusCode = 400 ∧
      validateFile ⟨2, ["png"]⟩ (.fails "x") ["up", "u.png"] (2 * 1024 * 1024 + 1) "a.png" =
        { decodeAttempted := false, result := .error e } :=
  ⟨by decide,
   (claim3_validate_file_checks ⟨2, ["png"]⟩ (.fails "x") ["up", "u.png"]
      (2 * 1024 * 1024 + 1) "a.png").2.2.1 (by decide)⟩

/-- If process_single_image reached the binary invocation, the validation
and the metadata construction both succeeded (they precede the try block). -/
theorem processSingleImage_invoked (cfg : AppCfg) (env : PipelineEnv)
    (fileContent : List Nat) (filename : String) (session : UploadSession)
    (hinv : (processSingleImage cfg env fileContent filename session).binaryInvoked = true) :
    ∃ vres metadata,
      (validateFile cfg.validator env.decode
        (cfg.fs.uploadDir ++ [(generateFilename env.fileUuid filename).1])
        fileContent.length filename).result = .ok vres ∧
      createImageMetadata env.jobUuid filename vres = .ok metadata := by
  cases hv : (validateFile cfg.validator env.decode
      (cfg.fs.uploadDir ++ [(generateFilename env.fileUuid filename).1])
      fileContent.length filename).result with
  | error e => exact absurd hinv (by simp [processSingleImage, hv])
  | ok vres =>
    cases hm : createImageMetadata env.jobUuid filename vres with
    | error e => exact absurd hinv (by simp [processSingleImage, hv, hm])
    | ok metadata => exact ⟨vres, metadata, rfl, hm⟩

/-- The message of the BinaryExecutionError raised on a nonzero exit. -/
def binaryNonzeroExitMessage (code : Int) : String :=
  s!"Binary execution failed with exit code {code}"

/-- The message of the ProcessingError that process_single_image wraps a
caught exception message in. -/
def processingWrapMessage (m : String) : String :=
  s!"Failed to process image: {m}"

/-- C1: in every pipeline invocation that reaches the external tool, a run
that exits with code 0 yields a response whose job status is completed and
whose payload is the base64 encoding of the output file that was read; a
run that exits nonzero leaves the job failed with the error message
recorded, and raises a ProcessingError wrapping the original message and
carrying the job id, with no response (hence no base64) produced. -/
theorem claim1_exit_code_semantics (cfg : AppCfg) (env : PipelineEnv)
    (fileContent : List Nat) (filename : String) (session : UploadSession)
    (hinv : (processSingleImage cfg env fileContent filename session).binaryInvoked = true)
    (hbin : env.execEnv.binaryIsFile = true) :
    (∀ out err bs, env.execEnv.run = .exits 0 out err →
      env.outputContent = some bs →
      ∃ resp job,
        (processSingleImage cfg env fileContent filename session).result = .ok resp ∧
        (processSingleImage cfg env fileContent filename session).job = some job ∧
        resp.status = .completed ∧ job.status = .completed ∧
        resp.processedImageBase64 = some (b64Encode bs) ∧
        job.binaryExitCode = some 0 ∧ resp.error = none) ∧
    (∀ code out err, env.execEnv.run = .exits code out err → code ≠ 0 →
      ∃ job,
        (processSingleImage cfg env fileContent filename session).job = some job ∧
        job.status = .failed ∧
        job.errorMessage = some (binaryNonzeroExitMessage code) ∧
        (processSingleImage cfg env fileContent filename session).result =
          .error (.processingError
            (processingWrapMessage (binaryNonzeroExitMessage code))
            [("job_id", DVal.s env.jobUuid),
             ("error", DVal.s (binaryNonzeroExitMessage code))])) := by
  obtain ⟨vres, metadata, hv, hm⟩ :=
    processSingleImage_invoked cfg env fileContent filename session hinv
  constructor
  · intro out err bs hrun hout
    simp [processSingleImage, hv, hm, binaryExecute, hbin, hrun, hout]
  · intro code out err hrun hcode
    simp [processSingleImage, hv, hm, binaryExecute, hbin, hrun, hcode,
      AppExc.message, mkBinaryExecutionError, binaryNonzeroExitMessage,
      processingWrapMessage]

/-- A concrete configuration with the default settings of core/config.py. -/
def demoCfg : AppCfg :=
  { validator := { maxFileSizeMb := 10
                   allowedExtensions := ["png", "jpg", "jpeg", "webp"] }
    exec := { binaryPath := "/usr/local/bin/GeminiWatermarkTool", timeoutSeconds := 30 }
    fs := { uploadDir := ["tmp", "uploads"], outputDir := ["tmp", "outputs"] }
    ts := { secretKey := some "secret-key", appEnvMode := .production } }

/-- A concrete session, as the route builds one after verification. -/
def demoSession : UploadSession :=
  { sessionId := "sess-1", clientIp := "203.0.113.0", turnstileToken := "tok"
    turnstileVerified := true, uploadedAt := 0 }

/-- A concrete environment in which the binary exists and exits cleanly. -/
def demoEnvExitZero : PipelineEnv :=
  { jobUuid := "job-1", fileUuid := "uuid-1"
    decode := .decodes "PNG" 2000 2000 "RGB"
    execEnv := { binaryIsFile := true, run := .exits 0 "ok" "" }
    outputContent := some [1, 2, 3], startTime := 0, elapsedMs := 5 }

/-- A concrete environment in which the binary exits with code 2. -/
def demoEnvExitTwo : PipelineEnv :=
  { demoEnvExitZero with execEnv := { binaryIsFile := true, run := .exits 2 "" "boom" } }

/-- A concrete environment in which the binary run exceeds its timeout. -/
def demoEnvTimeout : PipelineEnv :=
  { demoEnvExitZero with execEnv := { binaryIsFile := true, run := .timesOut } }

/-- Witness for C1: both branches of the theorem applied to concrete runs
with exit code 0 and exit code 2. -/
theorem claim1_witness :
    (∃ resp job,
      (processSingleImage demoCfg demoEnvExitZero [9, 9, 9] "a.png" demoSession).result =
        .ok resp ∧
      (processSingleImage demoCfg demoEnvExitZero [9, 9, 9] "a.png" demoSession).job =
        some job ∧
      resp.status = .completed ∧ job.status = .completed ∧
      resp.processedImageBase64 = some (b64Encode [1, 2, 3]) ∧
      job.binaryExitCode = some 0 ∧ resp.error = none) ∧
    (∃ job,
      (processSingleImage demoCfg demoEnvExitTwo [9, 9, 9] "a.png" demoSession).job =
        some job ∧
      job.status = .failed ∧
      job.errorMessage = some (binaryNonzeroExitMessage 2) ∧
      (processSingleImage demoCfg demoEnvExitTwo [9, 9, 9] "a.png" demoSession).result =
        .error (.processingError (processingWrapMessage (binaryNonzeroExitMessage 2))
          [("job_id", DVal.s "job-1"),
           ("error", DVal.s (binaryNonzeroExitMessage 2))])) :=
  ⟨(claim1_exit_code_semantics demoCfg demoEnvExitZero [9, 9, 9] "a.png" demoSession
      (by decide) rfl).1 "ok" "" [1, 2, 3] rfl rfl,
   (claim1_exit_code_semantics demoCfg demoEnvExitTwo [9, 9, 9] "a.png" demoSession
      (by decide) rfl).2 2 "" "boom" rfl (by decide)⟩

/-- The message of the BinaryExecutionError raised when the wait times out. -/
def binaryTimeoutMessage (t : Nat) : String :=
  s!"Binary execution timed out after {t} seconds"

/-- The message of the BinaryExecutionError raised when the binary path is
not a file at call time. -/
def binaryMissingMessage (p : String) : String := s!"Binary not found at {p}"

/-- The message of the BinaryExecutionError raised when the spawn raises a
SubprocessError. -/
def spawnFailMessage (e : String) : String := s!"Failed to execute binary: {e}"

/-- Projection of an Except outcome to the HTTP status the boundary
handler of main.py would answer with (none for a non-error outcome). -/
def errorHttpStatus {α : Type} : Except AppExc α → Option Nat
  | .error e => some (appExceptionHandler e).httpStatus
  | .ok _ => none

/-- C4: evaluation of the code at the failing input.  With a timed-out
run, the process is killed, but the surfaced error both at the executor
and after the pipeline wrapping carries HTTP status 500, never the 504
that routes.py advertises for a processing timeout: there is no dedicated
timeout exception class (the timeout raises BinaryExecutionError, whose
status is 500, re-wrapped into ProcessingError, also 500). -/
theorem claim4_timeout_status_bug :
    (binaryExecute demoCfg.exec { binaryIsFile := true, run := .timesOut }
      "tmp/uploads/u.png" "tmp/outputs/u.png" []).killed = true ∧
    errorHttpStatus (binaryExecute demoCfg.exec { binaryIsFile := true, run := .timesOut }
      "tmp/uploads/u.png" "tmp/outputs/u.png" []).result = some 500 ∧
    errorHttpStatus
      (processSingleImage demoCfg demoEnvTimeout [9, 9, 9] "a.png" demoSession).result =
      some 500 ∧
    errorHttpStatus
      (processSingleImage demoCfg demoEnvTimeout [9, 9, 9] "a.png" demoSession).result ≠
      some 504 := by
  refine ⟨rfl, rfl, rfl, ?_⟩
  decide

/-- What the code actually does on a timeout: kills the spawned process
and surfaces a BinaryExecutionError whose details carry the timeout bound
and no exit code, a value distinct from every nonzero-exit failure; at the
boundary it is mapped to HTTP 500. -/
theorem claim4_timeout_behaviour (cfg : ExecCfg) (env : ExecEnv)
    (inp outp : String) (args : List String)
    (hbin : env.binaryIsFile = true) (hrun : env.run = .timesOut) :
    (binaryExecute cfg env inp outp args).killed = true ∧
    (binaryExecute cfg env inp outp args).spawned = true ∧
    (binaryExecute cfg env inp outp args).result =
      .error (.binaryExecutionError (binaryTimeoutMessage cfg.timeoutSeconds)
        [("timeout_seconds", DVal.i cfg.timeoutSeconds)]) ∧
    AppExc.statusCode (.binaryExecutionError (binaryTimeoutMessage cfg.timeoutSeconds)
        [("timeout_seconds", DVal.i cfg.timeoutSeconds)]) = 500 ∧
    (∀ code out err,
      (AppExc.binaryExecutionError (binaryTimeoutMessage cfg.timeoutSeconds)
        [("timeout_seconds", DVal.i cfg.timeoutSeconds)]) ≠
      mkBinaryExecutionError (binaryNonzeroExitMessage code) (some code)
        [("stderr", DVal.s err), ("stdout", DVal.s out)]) := by
  refine ⟨?_, ?_, ?_, rfl, ?_⟩
  · simp [binaryExecute, hbin, hrun]
  · simp [binaryExecute, hbin, hrun]
  · simp [binaryExecute, hbin, hrun, mkBinaryExecutionError, binaryTimeoutMessage]
  · intro code out err
    simp [mkBinaryExecutionError]

/-- The timeout behaviour theorem applied at the default configuration. -/
theorem binaryExecute_timeout_at_default_cfg :
    (binaryExecute demoCfg.exec { binaryIsFile := true, run := .timesOut }
      "i.png" "o.png" []).killed = true ∧
    (binaryExecute demoCfg.exec { binaryIsFile := true, run := .timesOut }
      "i.png" "o.png" []).result =
      .error (.binaryExecutionError (binaryTimeoutMessage 30)
        [("timeout_seconds", DVal.i 30)]) :=
  ⟨(claim4_timeout_behaviour demoCfg.exec ⟨true, .timesOut⟩ "i.png" "o.png" [] rfl rfl).1,
   (claim4_timeout_behaviour demoCfg.exec ⟨true, .timesOut⟩ "i.png" "o.png" [] rfl rfl).2.2.1⟩

/-- C5: a missing binary at call time raises, before any spawn, a
configuration-flavoured BinaryExecutionError naming the binary path and
carrying no exit code; a spawn-level failure raises, after spawning, an
execution error distinct both from the timeout error and from every
nonzero-exit failure. -/
theorem claim5_spawn_and_missing_binary (cfg : ExecCfg) (env : ExecEnv)
    (inp outp : String) (args : List String) :
    (env.binaryIsFile = false →
      (binaryExecute cfg env inp outp args).spawned = false ∧
      (binaryExecute cfg env inp outp args).result =
        .error (.binaryExecutionError (binaryMissingMessage cfg.binaryPath)
          [("binary_path", DVal.s cfg.binaryPath)]) ∧
      (∀ code out err,
        (AppExc.binaryExecutionError (binaryMissingMessage cfg.binaryPath)
          [("binary_path", DVal.s cfg.binaryPath)]) ≠
        mkBinaryExecutionError (binaryNonzeroExitMessage code) (some code)
          [("stderr", DVal.s err), ("stdout", DVal.s out)])) ∧
    (env.binaryIsFile = true → ∀ m, env.run = .spawnFails m →
      (binaryExecute cfg env inp outp args).spawned = true ∧
      (binaryExecute cfg env inp outp args).killed = false ∧
      (binaryExecute cfg env inp outp args).result =
        .error (.binaryExecutionError (spawnFailMessage m) [("error", DVal.s m)]) ∧
      (∀ t : Nat,
        (AppExc.binaryExecutionError (spawnFailMessage m) [("error", DVal.s m)]) ≠
        .binaryExecutionError (binaryTimeoutMessage t) [("timeout_seconds", DVal.i t)]) ∧
      (∀ code out err,
        (AppExc.binaryExecutionError (spawnFailMessage m) [("error", DVal.s m)]) ≠
        mkBinaryExecutionError (binaryNonzeroExitMessage code) (some code)
          [("stderr", DVal.s err), ("stdout", DVal.s out)])) := by
  constructor
  · intro hmiss
    refine ⟨?_, ?_, ?_⟩
    · simp [binaryExecute, hmiss]
    · simp [binaryExecute, hmiss, mkBinaryExecutionError, binaryMissingMessage]
    · intro code out err
      simp [mkBinaryExecutionError]
  · intro hbin m hrun
    refine ⟨?_, ?_, ?_, ?_, ?_⟩
    · simp [binaryExecute, hbin, hrun]
    · simp [binaryExecute, hbin, hrun]
    · simp [binaryExecute, hbin, hrun, mkBinaryExecutionError, spawnFailMessage]
    · intro t
      simp
    · intro code out err
      simp [mkBinaryExecutionError]

/-- Witness for C5: a vanished binary and a concrete spawn failure. -/
theorem claim5_witness :
    (binaryExecute demoCfg.exec { binaryIsFile := false, run := .exits 0 "" "" }
      "i.png" "o.png" []).spawned = false ∧
    (binaryExecute demoCfg.exec
      { binaryIsFile := true, run := .spawnFails "No such file or directory" }
      "i.png" "o.png" []).result =
      .error (.binaryExecutionError (spawnFailMessage "No such file or directory")
        [("error", DVal.s "No such file or directory")]) :=
  ⟨((claim5_spawn_and_missing_binary demoCfg.exec ⟨false, .exits 0 "" ""⟩
      "i.png" "o.png" []).1 rfl).1,
   ((claim5_spawn_and_missing_binary demoCfg.exec
      ⟨true, .spawnFails "No such file or directory"⟩
      "i.png" "o.png" []).2 rfl "No such file or directory" rfl).2.2.1⟩

/-- The message of the route-level oversize ValidationError in routes.py. -/
def oversizeRouteMessage (mb : Nat) : String := s!"File size exceeds {mb}MB limit"

/-- C6: an upload exceeding the configured maximum is rejected by the route
with a ValidationError before process_single_image runs, hence before the
external tool is invoked and before any ProcessingJob exists; and inside
the pipeline every validation failure (validator or metadata stage)
propagates unchanged, unwrapped, with no job created and the binary never
invoked. -/
theorem claim6_oversize_and_validation_short_circuit (cfg : AppCfg) (env : RouteEnv)
    (fileContent : List Nat) (filename turnstileToken : String) :
    (filename.isEmpty = false →
      (∀ ts, verifyToken cfg.ts env.provider turnstileToken
          (some ((env.clientHost).getD "unknown")) = .ok ts →
        fileContent.length > cfg.validator.maxSizeBytes →
        (removeWatermark cfg env fileContent filename turnstileToken).result =
          .error (.validationError (oversizeRouteMessage cfg.validator.maxFileSizeMb)
            [("max_size_mb", DVal.i cfg.validator.maxFileSizeMb),
             ("received_size_mb", DVal.roundedMB fileContent.length)]) ∧
        (removeWatermark cfg env fileContent filename turnstileToken).pipelineRan = false ∧
        (removeWatermark cfg env fileContent filename turnstileToken).binaryInvoked = false)) ∧
    (∀ session e,
      (validateFile cfg.validator env.pipe.decode
        (cfg.fs.uploadDir ++ [(generateFilename env.pipe.fileUuid filename).1])
        fileContent.length filename).result = .error e →
      processSingleImage cfg env.pipe fileContent filename session =
        { binaryInvoked := false, job := none, result := .error e }) ∧
    (∀ session vres e,
      (validateFile cfg.validator env.pipe.decode
        (cfg.fs.uploadDir ++ [(generateFilename env.pipe.fileUuid filename).1])
        fileContent.length filename).result = .ok vres →
      createImageMetadata env.pipe.jobUuid filename vres = .error e →
      processSingleImage cfg env.pipe fileContent filename session =
        { binaryInvoked := false, job := none, result := .error e }) := by
  refine ⟨?_, ?_, ?_⟩
  · intro hname ts hver hsize
    refine ⟨?_, ?_, ?_⟩ <;>
      simp [removeWatermark, hname, hver, hsize, oversizeRouteMessage]
  · intro session e hv
    simp [processSingleImage, hv]
  · intro session vres e hv hm
    simp [processSingleImage, hv, hm]

/-- A configuration whose size limit is zero megabytes, so any nonempty
upload is oversized. -/
def tinyCfg : AppCfg := { demoCfg with validator := { demoCfg.validator with maxFileSizeMb := 0 } }

/-- A concrete route environment with a verified provider answer. -/
def demoRouteEnv : RouteEnv :=
  { sessionUuid := "sess-1", clientHost := some "203.0.113.9"
    provider := .responds true [], now := 0, pipe := demoEnvExitZero }

/-- Witness for C6: a one-byte upload against a zero-megabyte limit. -/
theorem claim6_witness :
    (removeWatermark tinyCfg demoRouteEnv [7] "a.png" "tok").result =
      .error (.validationError (oversizeRouteMessage 0)
        [("max_size_mb", DVal.i 0), ("received_size_mb", DVal.roundedMB 1)]) ∧
    (removeWatermark tinyCfg demoRouteEnv [7] "a.png" "tok").pipelineRan = false ∧
    (removeWatermark tinyCfg demoRouteEnv [7] "a.png" "tok").binaryInvoked = false :=
  (claim6_oversize_and_validation_short_circuit tinyCfg demoRouteEnv [7] "a.png" "tok").1
    rfl { success := true, bypass := false } rfl (by decide)

/-- C7 counterexample: a non-image upload named with an allow-listed image
extension passes both the extension check and the MIME check (the MIME
type is guessed from the file name alone), so the decode attempt does
reach the image library and the resulting failure is the decode error,
not an extension or MIME mismatch. -/
theorem claim7_counterexample :
    extractExtension "malware.png" ∈ demoCfg.validator.allowedExtensions ∧
    validateMimeType ["tmp", "uploads", "uuid-1.png"] = .ok () ∧
    (validateFile demoCfg.validator (.fails "cannot identify image file")
      ["tmp", "uploads", "uuid-1.png"] 100 "malware.png").decodeAttempted = true ∧
    (validateFile demoCfg.validator (.fails "cannot identify image file")
      ["tmp", "uploads", "uuid-1.png"] 100 "malware.png").result =
      .error (.validationError "Failed to read image file"
        [("error", DVal.s "cannot identify image file")]) := by
  refine ⟨by decide, rfl, rfl, rfl⟩

/-- C7 amended: a file that is not a decodable image but carries an
allow-listed image extension passes the extension check and the MIME check
(the MIME type is inferred from the path name alone, never from content),
and validation fails only at the decode step, with a ValidationError
wrapping the decode error. -/
theorem claim7_renamed_nonimage (cfg : ValidatorCfg) (filePath : FsPath)
    (fileSize : Nat) (filename errMsg : String)
    (hle : fileSize ≤ cfg.maxSizeBytes)
    (hmem : extractExtension filename ∈ cfg.allowedExtensions)
    (hmime : validateMimeType filePath = .ok ()) :
    (validateFile cfg (.fails errMsg) filePath fileSize filename).decodeAttempted = true ∧
    (validateFile cfg (.fails errMsg) filePath fileSize filename).result =
      .error (.validationError "Failed to read image file" [("error", DVal.s errMsg)]) := by
  have hsz : validateFileSize cfg fileSize = .ok () := by
    simp [validateFileSize, Nat.not_lt.mpr hle]
  have hext : validateFileExtension cfg filename = .ok () := by
    simp [validateFileExtension, hmem]
  constructor <;> simp [validateFile, hsz, hext, hmime, validateImageFormat]

/-- Witness for C7 amended: a renamed executable. -/
theorem claim7_witness :
    (validateFile demoCfg.validator (.fails "not an image") ["tmp", "uploads", "x.png"]
      50 "evil.png").decodeAttempted = true ∧
    (validateFile demoCfg.validator (.fails "not an image") ["tmp", "uploads", "x.png"]
      50 "evil.png").result =
      .error (.validationError "Failed to read image file"
        [("error", DVal.s "not an image")]) :=
  claim7_renamed_nonimage demoCfg.validator ["tmp", "uploads", "x.png"] 50 "evil.png"
    "not an image" (by decide) (by decide) rfl

/-- C8: a verification call with no configured secret succeeds with the
bypass flag in development run mode, and fails with the
configuration-shaped TurnstileError in any other run mode. -/
theorem claim8_no_secret_behaviour (cfg : TsCfg) (provider : TsProvider)
    (token : String) (ip : Option String)
    (hsec : optStrFalsy cfg.secretKey = true) :
    (cfg.appEnvMode = .development →
      verifyToken cfg provider token ip = .ok { success := true, bypass := true }) ∧
    (cfg.appEnvMode ≠ .development →
      verifyToken cfg provider token ip =
        .error (.turnstileError "Turnstile verification not configured"
          [("error", DVal.s "missing_secret_key")])) := by
  constructor <;> intro h <;> simp [verifyToken, hsec, h]

/-- Witness for C8 in both run modes with an absent secret. -/
theorem claim8_witness :
    verifyToken { secretKey := none, appEnvMode := .development }
      (.responds false ["invalid-input-response"]) "tok" none =
      .ok { success := true, bypass := true } ∧
    verifyToken { secretKey := none, appEnvMode := .production }
      (.responds true []) "tok" none =
      .error (.turnstileError "Turnstile verification not configured"
        [("error", DVal.s "missing_secret_key")]) :=
  ⟨(claim8_no_secret_behaviour ⟨none, .development⟩
      (.responds false ["invalid-input-response"]) "tok" none rfl).1 rfl,
   (claim8_no_secret_behaviour ⟨none, .production⟩
      (.responds true []) "tok" none rfl).2 (by decide)⟩

/-- Intercalating a single separator over an empty list of parts. -/
theorem intercalate_single_nil {α : Type} (x : α) :
    List.intercalate [x] ([] : List (List α)) = [] := by
  simp [List.intercalate]

/-- Intercalating a single separator over one part. -/
theorem intercalate_single_singleton {α : Type} (x : α) (a : List α) :
    List.intercalate [x] [a] = a := by
  simp [List.intercalate]

/-- Unfolding one step of intercalation with a single separator. -/
theorem intercalate_single_cons {α : Type} (x : α) (a b : List α) (t : List (List α)) :
    List.intercalate [x] (a :: b :: t) = a ++ x :: List.intercalate [x] (b :: t) := by
  simp [List.intercalate, List.intersperse]

/-- Any member of a single-separator intercalation is the separator or a
member of one of the parts. -/
theorem mem_intercalate_single {α : Type} (c x : α) (ls : List (List α)) :
    c ∈ List.intercalate [x] ls → c = x ∨ ∃ l ∈ ls, c ∈ l := by
  induction ls with
  | nil =>
    intro h
    simp [intercalate_single_nil] at h
  | cons a t ih =>
    cases t with
    | nil =>
      intro h
      rw [intercalate_single_singleton] at h
      exact Or.inr ⟨a, by simp, h⟩
    | cons b t2 =>
      intro h
      rw [intercalate_single_cons] at h
      rcases List.mem_append.mp h with h | h
      · exact Or.inr ⟨a, by simp, h⟩
      · rcases List.mem_cons.mp h with h | h
        · exact Or.inl h
        · rcases ih h with h | ⟨l, hl, hc⟩
          · exact Or.inl h
          · exact Or.inr ⟨l, List.mem_cons_of_mem _ hl, hc⟩

/-- C9: the stored client address is anonymized deterministically: a
dotted-quad address keeps its first three octets and gets a zero last
octet, an address containing a colon keeps its first four groups and gets
a ":0:0:0:0" tail, and the session built by the route carries exactly the
anonymized form of the request client address. -/
theorem claim9_anonymize_ip :
    (∀ p1 p2 p3 p4 : List Char,
      (∀ part ∈ [p1, p2, p3, p4], '.' ∉ part ∧ ':' ∉ part) →
      anonymizeIpChars (List.intercalate ['.'] [p1, p2, p3, p4]) =
        List.intercalate ['.'] [p1, p2, p3] ++ (".0").data) ∧
    (∀ g1 g2 g3 g4 g5 g6 g7 g8 : List Char,
      (∀ g ∈ [g1, g2, g3, g4, g5, g6, g7, g8], ':' ∉ g) →
      anonymizeIpChars (List.intercalate [':'] [g1, g2, g3, g4, g5, g6, g7, g8]) =
        List.intercalate [':'] [g1, g2, g3, g4] ++ (":0:0:0:0").data) ∧
    (∀ (cfg : AppCfg) (env : RouteEnv) (fileContent : List Nat)
      (filename turnstileToken : String) (s : UploadSession),
      (removeWatermark cfg env fileContent filename turnstileToken).session = some s →
      s.clientIp = anonymizeIp ((env.clientHost).getD "unknown")) := by
  refine ⟨?_, ?_, ?_⟩
  · intro p1 p2 p3 p4 hp
    have hnotcolon : ':' ∉ List.intercalate ['.'] [p1, p2, p3, p4] := by
      intro hc
      rcases mem_intercalate_single ':' '.' _ hc with h | ⟨l, hl, hcl⟩
      · exact absurd h (by decide)
      · exact (hp l hl).2 hcl
    have hsplit : (List.intercalate ['.'] [p1, p2, p3, p4]).splitOn '.' = [p1, p2, p3, p4] :=
      List.splitOn_intercalate [p1, p2, p3, p4] '.' (fun l hl => (hp l hl).1) (by simp)
    simp [anonymizeIpChars, hnotcolon, hsplit]
  · intro g1 g2 g3 g4 g5 g6 g7 g8 hg
    have hcolon : ':' ∈ List.intercalate [':'] [g1, g2, g3, g4, g5, g6, g7, g8] := by
      rw [intercalate_single_cons]
      exact List.mem_append.mpr (Or.inr (List.mem_cons_self _ _))
    have hsplit :
        (List.intercalate [':'] [g1, g2, g3, g4, g5, g6, g7, g8]).splitOn ':' =
          [g1, g2, g3, g4, g5, g6, g7, g8] :=
      List.splitOn_intercalate [g1, g2, g3, g4, g5, g6, g7, g8] ':'
        (fun l hl => hg l hl) (by simp)
    simp [anonymizeIpChars, hcolon, hsplit]
  · intro cfg env fileContent filename turnstileToken s h
    by_cases hname : filename.isEmpty
    · simp [removeWatermark, hname] at h
    · cases hver : verifyToken cfg.ts env.provider turnstileToken
        (some ((env.clientHost).getD "unknown")) with
      | error e => simp [removeWatermark, hname, hver] at h
      | ok ts =>
        by_cases hsize : fileContent.length > cfg.validator.maxSizeBytes
        · simp [removeWatermark, hname, hver, hsize] at h
          subst h
          rfl
        · simp [removeWatermark, hname, hver, hsize] at h
          subst h
          rfl

/-- Witness for C9 on concrete IPv4 and IPv6 addresses. -/
theorem claim9_witness :
    anonymizeIpChars (List.intercalate ['.'] ["192".data, "168".data, "1".data, "42".data]) =
      List.intercalate ['.'] ["192".data, "168".data, "1".data] ++ (".0").data ∧
    anonymizeIpChars (List.intercalate [':'] ["2001".data, "db8".data, "aa".data, "bb".data,
      "cc".data, "dd".data, "1".data, "2".data]) =
      List.intercalate [':'] ["2001".data, "db8".data, "aa".data, "bb".data] ++ (":0:0:0:0").data :=
  ⟨claim9_anonymize_ip.1 "192".data "168".data "1".data "42".data (by decide),
   claim9_anonymize_ip.2.1 "2001".data "db8".data "aa".data "bb".data
     "cc".data "dd".data "1".data "2".data (by decide)⟩

/-- The last component of a directory-plus-filename path is the filename,
whatever the default. -/
theorem getLastD_append_single (d : List String) (u : String) :
    ∀ b, (d ++ [u]).getLastD b = u := by
  induction d with
  | nil => intro b; rfl
  | cons a t ih =>
    intro b
    rw [List.cons_append, List.getLastD_cons]
    exact ih a

/-- C10: every successful response returns as output filename exactly the
unique filename generated for the upload; the job reads and writes the
same basename under the upload and output directories; and distinct
unique upload names give distinct output paths, so outputs of different
requests never collide. -/
theorem claim10_output_filename (cfg : AppCfg) (env : PipelineEnv)
    (fileContent : List Nat) (filename : String) (session : UploadSession) :
    (∀ resp, (processSingleImage cfg env fileContent filename session).result = .ok resp →
      resp.outputFilename = some ((generateFilename env.fileUuid filename).1) ∧
      (∀ job, (processSingleImage cfg env fileContent filename session).job = some job →
        job.outputFilePath = cfg.fs.outputDir ++ [(generateFilename env.fileUuid filename).1] ∧
        job.inputFilePath = cfg.fs.uploadDir ++ [(generateFilename env.fileUuid filename).1] ∧
        pathName job.outputFilePath = pathName job.inputFilePath)) ∧
    (∀ n1 n2 : String, n1 ≠ n2 → getOutputPath cfg.fs n1 ≠ getOutputPath cfg.fs n2) := by
  constructor
  · intro resp hresp
    cases hv : (validateFile cfg.validator env.decode
        (cfg.fs.uploadDir ++ [(generateFilename env.fileUuid filename).1])
        fileContent.length filename).result with
    | error e => exact absurd hresp (by simp [processSingleImage, hv])
    | ok vres =>
      cases hm : createImageMetadata env.jobUuid filename vres with
      | error e => exact absurd hresp (by simp [processSingleImage, hv, hm])
      | ok metadata =>
        cases hex : (binaryExecute cfg.exec env.execEnv
            (pathStr (cfg.fs.uploadDir ++ [(generateFilename env.fileUuid filename).1]))
            (pathStr (getOutputPath cfg.fs (generateFilename env.fileUuid filename).1))
            []).result with
        | error e => exact absurd hresp (by simp [processSingleImage, hv, hm, hex])
        | ok r =>
          cases hoc : env.outputContent with
          | none => exact absurd hresp (by simp [processSingleImage, hv, hm, hex, hoc])
          | some content =>
            have hresp2 := hresp
            simp only [processSingleImage, hv, hm, hex, hoc, Except.ok.injEq] at hresp2
            subst hresp2
            constructor
            · simp [pathName, getOutputPath, getLastD_append_single]
            · intro job hjob
              simp only [processSingleImage, hv, hm, hex, hoc, Option.some.injEq] at hjob
              subst hjob
              refine ⟨by simp [getOutputPath], rfl, ?_⟩
              simp [pathName, getOutputPath, getLastD_append_single]
  · intro n1 n2 hne h
    apply hne
    simpa [getOutputPath] using h

/-- Witness for C10 on the concrete successful run. -/
theorem claim10_witness :
    ∃ resp,
      (processSingleImage demoCfg demoEnvExitZero [9, 9, 9] "a.png" demoSession).result =
        .ok resp ∧
      resp.outputFilename = some ((generateFilename "uuid-1" "a.png").1) ∧
      getOutputPath demoCfg.fs "uuid-1.png" ≠ getOutputPath demoCfg.fs "uuid-2.png" := by
  refine ⟨_, rfl, ?_, ?_⟩
  · exact ((claim10_output_filename demoCfg demoEnvExitZero [9, 9, 9] "a.png"
      demoSession).1 _ rfl).1
  · exact (claim10_output_filename demoCfg demoEnvExitZero [9, 9, 9] "a.png"
      demoSession).2 "uuid-1.png" "uuid-2.png" (by decide)
